import Mathlib

/-
Verification of the theme-provider repository (figueroaignacio/themes).

The repository's theme-logic core is `src/theme-provider.tsx`, which holds two
parallel implementations of the same design, separated in the source file:

  * implementation 1 (the `i7a-themes` provider): `getSystemTheme`,
    `getStoredTheme`, `setCookie`, `applyTheme`, `ThemeProvider` (with
    `forcedTheme` support and cookie mirroring), `setTheme`, `useTheme`;
  * implementation 2 (the view-transition provider): `getSystemTheme`,
    the inline localStorage load, `resolveTheme`, `applyTheme` (with
    `startViewTransition` and the circular-reveal animation), `setTheme`,
    `useTheme`.

They are embedded below in namespaces `Impl1` and `Impl2`.  Browser state is
made explicit: the `window` global is an `Option Bool` (`none` = no window,
`some m` = a window whose `matchMedia("(prefers-color-scheme: dark)").matches`
is `m`), localStorage is a partial map `String → Option String`, and presence
of the `document` global is a `Bool`.  DOM writes performed by the appliers
are recorded as explicit `SurfaceOp` traces so that ordering and counting
properties can be stated.
-/

namespace Themes

/-- The declared preference: `"light" | "dark" | "system"` (`type Theme`). -/
inductive Theme
  | light
  | dark
  | system
deriving DecidableEq

/-- The resolved binary value: `"light" | "dark"` (`type ResolvedTheme`). -/
inductive ResolvedTheme
  | light
  | dark
deriving DecidableEq

/-- The serialized form of a declared preference, as stored in localStorage. -/
def Theme.toString : Theme → String
  | .light => "light"
  | .dark => "dark"
  | .system => "system"

/-- The serialized form of a resolved value, as written to class lists,
attributes and cookies. -/
def ResolvedTheme.toString : ResolvedTheme → String
  | .light => "light"
  | .dark => "dark"

/-- Injection of the binary resolved values into the preference enumeration. -/
def ResolvedTheme.toTheme : ResolvedTheme → Theme
  | .light => .light
  | .dark => .dark

/-- The browser's localStorage, as a partial map from keys to stored strings
(`none` = no entry). -/
def Storage : Type := String → Option String

/-- `localStorage.setItem(key, value)`. -/
def setItem (storage : Storage) (key value : String) : Storage :=
  fun k => if k = key then some value else storage k

/-- Implementation 2's `resolveTheme` (theme-provider.tsx lines 233-238):
`system` resolves to the ambient system theme, a binary preference resolves
to itself.  Implementation 1 inlines the same conditional
(`current === "system" ? getSystemTheme() : current`). -/
def resolveTheme (t : Theme) (ambient : ResolvedTheme) : ResolvedTheme :=
  match t with
  | .system => ambient
  | .light => .light
  | .dark => .dark

/-- The resolution pipeline of implementation 1 with a possible forced
override: `const current = forcedTheme || theme` followed by
`current === "system" ? getSystemTheme() : current` (lines 98-99, 125-127). -/
def resolveWithForced (forced : Option Theme) (declared : Theme)
    (ambient : ResolvedTheme) : ResolvedTheme :=
  resolveTheme (forced.getD declared) ambient

/-- One DOM write performed by an applier; appliers return traces of these. -/
inductive SurfaceOp
  | installNoTransitionRule
  | forceReflow
  | removeClasses
  | addClass (t : ResolvedTheme)
  | setDataAttr (name : String) (t : ResolvedTheme)
  | setColorScheme (t : ResolvedTheme)
  | removeNoTransitionRule
deriving DecidableEq

/-- The `attribute` configuration option of implementation 1:
`"class" | "data-theme"`. -/
inductive Attr
  | className
  | dataTheme
deriving DecidableEq

/-- Whether a class name is one of the two theme marker classes. -/
def isThemeClass (c : String) : Bool := c == "light" || c == "dark"

/-- The render surface's presentation state: the root element's class list,
its attributes, and its `style.colorScheme`. -/
structure Surface where
  classes : List String
  dataAttrs : List (String × String)
  colorScheme : Option String
deriving DecidableEq

/-- Setting an attribute in an attribute list. -/
def setAssoc (l : List (String × String)) (k v : String) :
    List (String × String) :=
  (k, v) :: l.filter (fun p => p.1 != k)

/-- Effect of a single surface operation on the presentation state.  The
no-transition style-rule operations do not touch the presentation marker;
their lifecycle is tracked in the traces themselves. -/
def runOp (s : Surface) : SurfaceOp → Surface
  | .installNoTransitionRule => s
  | .forceReflow => s
  | .removeNoTransitionRule => s
  | .removeClasses => { s with classes := s.classes.filter (fun c => !isThemeClass c) }
  | .addClass t =>
      if ResolvedTheme.toString t ∈ s.classes then s
      else { s with classes := s.classes ++ [ResolvedTheme.toString t] }
  | .setDataAttr n t => { s with dataAttrs := setAssoc s.dataAttrs n (ResolvedTheme.toString t) }
  | .setColorScheme t => { s with colorScheme := some (ResolvedTheme.toString t) }

/-- Running a trace of surface operations in order. -/
def runOps (s : Surface) (ops : List SurfaceOp) : Surface := ops.foldl runOp s

/-- Number of presentation-marker writes (class additions or attribute
assignments) in a trace. -/
def markerWrites (ops : List SurfaceOp) : Nat :=
  (ops.filter fun op =>
    match op with
    | SurfaceOp.addClass _ => true
    | SurfaceOp.setDataAttr _ _ => true
    | _ => false).length

namespace Impl1

/-- Implementation 1's `getSystemTheme` (lines 36-39): with no `window` it
returns `"dark"`; otherwise it reads the media query. -/
def getSystemTheme (window : Option Bool) : ResolvedTheme :=
  match window with
  | none => .dark
  | some m => if m then .dark else .light

/-- Implementation 1's `getStoredTheme` (lines 41-49): with no `window` the
default; otherwise the stored value if it is one of `"light"`, `"dark"`,
`"system"`, else the default.  A storage read failure (the `catch {}` arm)
behaves like a missing entry. -/
def getStoredTheme (window : Option Bool) (storage : Storage) (key : String)
    (defaultTheme : Theme) : Theme :=
  match window with
  | none => defaultTheme
  | some _ =>
    match storage key with
    | some "light" => .light
    | some "dark" => .dark
    | some "system" => .system
    | _ => defaultTheme

/-- Implementation 1's `setCookie` (lines 51-54): a no-op without `document`,
otherwise writes `name=value` (with fixed path, max-age and SameSite
attributes) to the cookie jar. -/
def setCookie (docPresent : Bool) (cookies : List (String × String))
    (name value : String) : List (String × String) :=
  if docPresent then (name, value) :: cookies else cookies

/-- The marker mutation of implementation 1's `applyTheme` (lines 73-78):
class mode removes both theme classes then adds the new one; attribute mode
sets `data-theme`. -/
def markerOps (attr : Attr) (t : ResolvedTheme) : List SurfaceOp :=
  match attr with
  | .className => [SurfaceOp.removeClasses, SurfaceOp.addClass t]
  | .dataTheme => [SurfaceOp.setDataAttr "data-theme" t]

/-- Implementation 1's `applyTheme` (lines 56-79), as a pair
(synchronous trace, deferred trace).  Without `document` it is a no-op.
With `disableTransition` it appends the no-transition style element, forces a
reflow via `getComputedStyle`, schedules the style element's removal with
`setTimeout(_, 1)` (the deferred trace), and then performs the marker
mutation synchronously. -/
def applyTheme (docPresent : Bool) (theme : ResolvedTheme) (attr : Attr)
    (disableTransition : Bool) : List SurfaceOp × List SurfaceOp :=
  if docPresent then
    if disableTransition then
      ([SurfaceOp.installNoTransitionRule, SurfaceOp.forceReflow] ++ markerOps attr theme,
       [SurfaceOp.removeNoTransitionRule])
    else (markerOps attr theme, [])
  else ([], [])

/-- The configuration options of implementation 1's `ThemeProvider`
(lines 14-23; defaults `defaultTheme = "dark"`, `storageKey = "theme"`,
`attribute = "class"`, `disableTransitionOnChange = true`,
`enableCookieStorage = false`, `cookieName = "theme"`). -/
structure Config where
  defaultTheme : Theme
  storageKey : String
  attr : Attr
  disableTransitionOnChange : Bool
  forcedTheme : Option Theme
  enableCookieStorage : Bool
  cookieName : String

/-- The provider's React state plus the external stores it writes. -/
structure State where
  theme : Theme
  systemTheme : Option ResolvedTheme
  resolvedTheme : ResolvedTheme
  storage : Storage
  cookies : List (String × String)

/-- The `useState` initializers of implementation 1's `ThemeProvider`
(lines 91-100): `theme = forcedTheme || getStoredTheme(...)`,
`systemTheme = getSystemTheme()`, and `resolvedTheme` resolves
`forcedTheme || getStoredTheme(...)` against the system theme. -/
def initState (cfg : Config) (window : Option Bool) (storage : Storage) : State :=
  { theme := cfg.forcedTheme.getD (getStoredTheme window storage cfg.storageKey cfg.defaultTheme)
    systemTheme := some (getSystemTheme window)
    resolvedTheme :=
      resolveTheme (cfg.forcedTheme.getD (getStoredTheme window storage cfg.storageKey cfg.defaultTheme))
        (getSystemTheme window)
    storage := storage
    cookies := [] }

/-- Implementation 1's `setTheme` (lines 133-145).  With a `forcedTheme` it
returns immediately (no state change, no surface operations).  Otherwise it
stores the new declared preference, resolves it (`newTheme === "system" ?
systemTheme || getSystemTheme() : newTheme`), applies it to the surface,
persists it (`localStorage.setItem` throws and is swallowed without a
window), and optionally mirrors the resolved value to the cookie.  Returns
(new state, synchronous surface trace, deferred surface trace). -/
def setTheme (cfg : Config) (window : Option Bool) (docPresent : Bool)
    (s : State) (newTheme : Theme) : State × List SurfaceOp × List SurfaceOp :=
  match cfg.forcedTheme with
  | some _ => (s, [], [])
  | none =>
    let resolved : ResolvedTheme :=
      match newTheme with
      | .system => s.systemTheme.getD (getSystemTheme window)
      | .light => .light
      | .dark => .dark
    let applied := applyTheme docPresent resolved cfg.attr cfg.disableTransitionOnChange
    let storage1 : Storage :=
      match window with
      | some _ => setItem s.storage cfg.storageKey newTheme.toString
      | none => s.storage
    let cookies1 :=
      if cfg.enableCookieStorage then
        setCookie docPresent s.cookies cfg.cookieName resolved.toString
      else s.cookies
    ({ theme := newTheme
       systemTheme := s.systemTheme
       resolvedTheme := resolved
       storage := storage1
       cookies := cookies1 }, applied.1, applied.2)

/-- The context value exposed to consumers (lines 157-164):
`theme: forcedTheme || theme`, plus the resolved and system themes. -/
structure ContextValue where
  theme : Theme
  resolvedTheme : ResolvedTheme
  systemTheme : Option ResolvedTheme
deriving DecidableEq

/-- The exposed context value for a given state (lines 157-164). -/
def contextValue (cfg : Config) (s : State) : ContextValue :=
  { theme := cfg.forcedTheme.getD s.theme
    resolvedTheme := s.resolvedTheme
    systemTheme := s.systemTheme }

/-- Implementation 1's `useTheme` (lines 170-174): reading the context
outside a provider throws; inside, it returns the context value. -/
def useTheme (ctx : Option ContextValue) : Except String ContextValue :=
  match ctx with
  | none => Except.error "useTheme must be used within ThemeProvider"
  | some c => Except.ok c

end Impl1

namespace Impl2

/-- Implementation 2's `getSystemTheme` (lines 228-231): with no `window` it
returns `"light"`; otherwise it reads the media query. -/
def getSystemTheme (window : Option Bool) : ResolvedTheme :=
  match window with
  | none => .light
  | some m => if m then .dark else .light

/-- Implementation 2's inline stored-preference load, the `useState`
initializer of its `ThemeProvider` (lines 218-223):
`(localStorage.getItem(storageKey) as Theme) || defaultTheme`.  With no
window the default; a missing entry (`null`) or the empty string is falsy
and yields the default; every other stored string — valid or not — is
returned verbatim (the cast performs no validation). -/
def loadStoredTheme (window : Option Bool) (storage : Storage) (key : String)
    (defaultTheme : String) : String :=
  match window with
  | none => defaultTheme
  | some _ =>
    match storage key with
    | none => defaultTheme
    | some s => if s = "" then defaultTheme else s

/-- Implementation 2's `resolveTheme` (lines 233-238) at the runtime string
level: `"system"` resolves to the system theme; any other string — including
an invalid one smuggled through the unvalidated load — is returned as is. -/
def resolveThemeRaw (theme : String) (ambient : ResolvedTheme) : String :=
  if theme = "system" then ambient.toString else theme

/-- `window.innerWidth` and `window.innerHeight`. -/
structure ViewportSize where
  innerWidth : ℚ
  innerHeight : ℚ
deriving DecidableEq

/-- The part of a `React.MouseEvent` that `applyTheme` reads. -/
structure ClickEvent where
  clientX : ℚ
  clientY : ℚ
deriving DecidableEq

/-- The circular-reveal animation started in `transition.ready.then` (lines
287-303).  The end radius is `Math.hypot(radiusArgX, radiusArgY)`; the two
hypot arguments are recorded, and radius comparisons are phrased on squares
(`endRadiusSq`), since `hypot a b = Real.sqrt (a^2 + b^2)` and squaring is
monotone on nonnegative reals. -/
structure RevealAnimation where
  centerX : ℚ
  centerY : ℚ
  fromRadius : ℚ
  radiusArgX : ℚ
  radiusArgY : ℚ
  duration : ℕ
  easing : String
  pseudoElement : String
deriving DecidableEq

/-- The square of the reveal animation's end radius,
`Math.hypot(radiusArgX, radiusArgY) ^ 2`. -/
def RevealAnimation.endRadiusSq (a : RevealAnimation) : ℚ :=
  a.radiusArgX ^ 2 + a.radiusArgY ^ 2

/-- The animation record built from a click at `(x, y)` in a viewport of
size `w × h` (lines 276-302): `endRadius = Math.hypot(Math.max(x, w - x),
Math.max(y, h - y))`, clip path from `circle(0px at x y)` to
`circle(endRadius at x y)`, 500ms, ease-in-out, on
`::view-transition-new(root)`. -/
def revealAnimationAt (x y w h : ℚ) : RevealAnimation :=
  { centerX := x
    centerY := y
    fromRadius := 0
    radiusArgX := max x (w - x)
    radiusArgY := max y (h - y)
    duration := 500
    easing := "ease-in-out"
    pseudoElement := "::view-transition-new(root)" }

/-- Implementation 2's `updateTheme` closure (lines 244-254): always removes
both theme classes, then adds the class or sets the configured attribute,
then sets `style.colorScheme`. -/
def updateThemeOps (attr : String) (newTheme : ResolvedTheme) : List SurfaceOp :=
  [SurfaceOp.removeClasses] ++
    (if attr = "class" then [SurfaceOp.addClass newTheme]
     else [SurfaceOp.setDataAttr attr newTheme]) ++
    [SurfaceOp.setColorScheme newTheme]

/-- Outcome of implementation 2's `applyTheme`: a thrown reference error
(it dereferences the `document` global with no guard), a plain synchronous
application (with its deferred style-rule removal trace), or a view
transition wrapping the update, possibly with a reveal animation. -/
inductive ApplyResult
  | errorNoDocument
  | plain (syncOps : List SurfaceOp) (deferredOps : List SurfaceOp)
  | viewTransition (ops : List SurfaceOp) (anim : Option RevealAnimation)
deriving DecidableEq

/-- Whether the applier outcome is a thrown error. -/
def ApplyResult.isError : ApplyResult → Bool
  | .errorNoDocument => true
  | _ => false

/-- Implementation 2's `applyTheme` (lines 240-309).  It reads
`document.documentElement` unconditionally, so with no `document` it throws.
When view transitions are disabled or unsupported it takes the plain path
(optionally with the no-transition style rule, installed and reflowed before
the mutation and removed on a deferred timer).  Otherwise it runs the update
inside `startViewTransition`, and with a click event drives the circular
reveal. -/
def applyTheme (docPresent : Bool) (supportsViewTransitions : Bool)
    (enableViewTransitions : Bool) (disableTransitionOnChange : Bool)
    (attr : String) (viewport : ViewportSize) (newTheme : ResolvedTheme)
    (clickEvent : Option ClickEvent) : ApplyResult :=
  if !docPresent then .errorNoDocument
  else if !enableViewTransitions || !supportsViewTransitions then
    if disableTransitionOnChange then
      .plain ([SurfaceOp.installNoTransitionRule, SurfaceOp.forceReflow] ++
              updateThemeOps attr newTheme)
        [SurfaceOp.removeNoTransitionRule]
    else .plain (updateThemeOps attr newTheme) []
  else
    match clickEvent with
    | some e =>
        .viewTransition (updateThemeOps attr newTheme)
          (some (revealAnimationAt e.clientX e.clientY
                  viewport.innerWidth viewport.innerHeight))
    | none => .viewTransition (updateThemeOps attr newTheme) none

/-- Implementation 2's provider state: the declared preference and the
resolved value are raw strings at runtime (the unvalidated cast), plus the
`mounted` flag. -/
structure State where
  theme : String
  resolvedTheme : String
  mounted : Bool
deriving DecidableEq

/-- The `useState` initializers of implementation 2's `ThemeProvider`
(lines 218-226): the declared preference from the unvalidated load,
`resolvedTheme` the constant `'light'`, `mounted` false. -/
def initState (window : Option Bool) (storage : Storage) (key defaultTheme : String) :
    State :=
  { theme := loadStoredTheme window storage key defaultTheme
    resolvedTheme := "light"
    mounted := false }

/-- The mount effect (lines 311-316): sets `mounted`, resolves the declared
preference and publishes it as `resolvedTheme`. -/
def mountEffect (window : Option Bool) (s : State) : State :=
  { s with mounted := true
           resolvedTheme := resolveThemeRaw s.theme (getSystemTheme window) }

/-- Implementation 2's context value: declared and resolved theme (raw
strings at runtime) and the available theme list. -/
structure ContextValue where
  theme : String
  resolvedTheme : String
  themes : List Theme
deriving DecidableEq

/-- Implementation 2's `useTheme` (lines 372-378): outside a provider the
context is `undefined` and it throws; inside, it returns the context value. -/
def useTheme (ctx : Option ContextValue) : Except String ContextValue :=
  match ctx with
  | none => Except.error "useTheme debe usarse dentro de ThemeProvider"
  | some c => Except.ok c

end Impl2

/-- Squared distance from `(x, y)` to the corner `(cx, cy)`. -/
def cornerDistSq (x y cx cy : ℚ) : ℚ := (x - cx) ^ 2 + (y - cy) ^ 2

/-- The largest squared distance from `(x, y)` to any of the four corners of
a `w × h` viewport. -/
def maxCornerDistSq (x y w h : ℚ) : ℚ :=
  max (max (cornerDistSq x y 0 0) (cornerDistSq x y w 0))
      (max (cornerDistSq x y 0 h) (cornerDistSq x y w h))

/-- A configuration of implementation 1 with the source defaults and no
forced override. -/
def cfgPlain : Impl1.Config :=
  { defaultTheme := Theme.dark
    storageKey := "theme"
    attr := Attr.className
    disableTransitionOnChange := true
    forcedTheme := none
    enableCookieStorage := false
    cookieName := "theme" }

/-- A configuration of implementation 1 with a forced `"dark"` override. -/
def cfgForced : Impl1.Config :=
  { defaultTheme := Theme.dark
    storageKey := "theme"
    attr := Attr.className
    disableTransitionOnChange := true
    forcedTheme := some Theme.dark
    enableCookieStorage := false
    cookieName := "theme" }

/-- An empty localStorage. -/
def emptyStorage : Storage := fun _ => none

/-- The provider state after initialization with the plain configuration in a
light-preferring browser with empty storage. -/
def s0Plain : Impl1.State := Impl1.initState cfgPlain (some false) emptyStorage

/-- The provider state after initialization with the forced configuration in a
light-preferring browser with empty storage. -/
def s0Forced : Impl1.State := Impl1.initState cfgForced (some false) emptyStorage

/-- A sample render surface with an unrelated class present. -/
def surf0 : Surface := { classes := ["foo"], dataAttrs := [], colorScheme := none }

/-- Filtering twice with the same predicate filters once. -/
lemma filter_twice {α : Type} (p : α → Bool) (l : List α) :
    (l.filter p).filter p = l.filter p := by
  induction l with
  | nil => rfl
  | cons a l2 ih =>
    cases h : p a
    · simp [List.filter_cons, h, ih]
    · simp [List.filter_cons, h, ih]

/-- Both serialized resolved values are theme marker classes. -/
lemma isThemeClass_toString (t : ResolvedTheme) :
    isThemeClass (ResolvedTheme.toString t) = true := by
  cases t <;> rfl

/-- After `classList.remove("light", "dark")`, no theme marker class remains. -/
lemma toString_not_mem_filtered (l : List String) (t : ResolvedTheme) :
    ResolvedTheme.toString t ∉ l.filter (fun c => !isThemeClass c) := by
  intro hmem
  have h2 := (List.mem_filter.mp hmem).2
  rw [isThemeClass_toString] at h2
  simp at h2

/-- Effect of the class-mode marker mutation on a surface: theme classes are
cleared, then the new theme class is appended. -/
lemma runOps_marker_className (surf : Surface) (t : ResolvedTheme) :
    runOps surf (Impl1.markerOps Attr.className t) =
      { surf with classes :=
          surf.classes.filter (fun c => !isThemeClass c) ++ [ResolvedTheme.toString t] } := by
  show runOp (runOp surf SurfaceOp.removeClasses) (SurfaceOp.addClass t) = _
  simp only [runOp]
  rw [if_neg (toString_not_mem_filtered surf.classes t)]

/-- The class-mode marker mutation is idempotent on the surface. -/
lemma runOps_marker_className_idem (surf : Surface) (t : ResolvedTheme) :
    runOps (runOps surf (Impl1.markerOps Attr.className t))
        (Impl1.markerOps Attr.className t) =
      runOps surf (Impl1.markerOps Attr.className t) := by
  rw [runOps_marker_className, runOps_marker_className]
  simp [List.filter_append, filter_twice, List.filter_cons, isThemeClass_toString]

/-- Setting the same attribute to the same value twice equals setting it
once. -/
lemma setAssoc_idem (l : List (String × String)) (k v : String) :
    setAssoc (setAssoc l k v) k v = setAssoc l k v := by
  simp [setAssoc, List.filter_cons, filter_twice]

/-- The attribute-mode marker mutation is idempotent on the surface. -/
lemma runOps_marker_data_idem (surf : Surface) (t : ResolvedTheme) :
    runOps (runOps surf (Impl1.markerOps Attr.dataTheme t))
        (Impl1.markerOps Attr.dataTheme t) =
      runOps surf (Impl1.markerOps Attr.dataTheme t) := by
  show runOp (runOp surf (SurfaceOp.setDataAttr "data-theme" t))
      (SurfaceOp.setDataAttr "data-theme" t) =
    runOp surf (SurfaceOp.setDataAttr "data-theme" t)
  simp only [runOp]
  rw [setAssoc_idem]

/-- The marker mutation is idempotent on the surface in both modes. -/
lemma runOps_marker_idem (surf : Surface) (attr : Attr) (t : ResolvedTheme) :
    runOps (runOps surf (Impl1.markerOps attr t)) (Impl1.markerOps attr t) =
      runOps surf (Impl1.markerOps attr t) := by
  cases attr
  · exact runOps_marker_className_idem surf t
  · exact runOps_marker_data_idem surf t

/-- Implementation 1's full surface application (style-rule handling
included) is idempotent on the presentation surface. -/
lemma runOps_applyTheme_idem (surf : Surface) (r : ResolvedTheme) (attr : Attr)
    (dis : Bool) :
    runOps (runOps surf (Impl1.applyTheme true r attr dis).1)
        (Impl1.applyTheme true r attr dis).1 =
      runOps surf (Impl1.applyTheme true r attr dis).1 := by
  cases dis <;> exact runOps_marker_idem surf attr r

/-- Squaring commutes with `max` on nonnegative rationals. -/
lemma sq_max_of_nonneg (a b : ℚ) (ha : 0 ≤ a) (hb : 0 ≤ b) :
    max a b ^ 2 = max (a ^ 2) (b ^ 2) := by
  rcases le_total a b with h | h
  · rw [max_eq_right h, max_eq_right (pow_le_pow_left₀ ha h 2)]
  · rw [max_eq_left h, max_eq_left (pow_le_pow_left₀ hb h 2)]

/-- The squared reveal radius `hypot(max(x, w-x), max(y, h-y))^2` equals the
largest squared distance from the origin coordinate to any of the four
viewport corners, whenever the coordinate lies inside the viewport. -/
lemma endRadiusSq_eq_maxCornerDistSq (x y w h : ℚ) (hx0 : 0 ≤ x) (hxw : x ≤ w)
    (hy0 : 0 ≤ y) (hyh : y ≤ h) :
    (Impl2.revealAnimationAt x y w h).endRadiusSq = maxCornerDistSq x y w h := by
  have hwx : 0 ≤ w - x := sub_nonneg.mpr hxw
  have hhy : 0 ≤ h - y := sub_nonneg.mpr hyh
  have e1 : (x - w) ^ 2 = (w - x) ^ 2 := by ring
  have e2 : (y - h) ^ 2 = (h - y) ^ 2 := by ring
  unfold Impl2.RevealAnimation.endRadiusSq Impl2.revealAnimationAt
    maxCornerDistSq cornerDistSq
  simp only [sub_zero]
  rw [sq_max_of_nonneg x (w - x) hx0 hwx, sq_max_of_nonneg y (h - y) hy0 hhy,
    e1, e2, max_add_add_right, max_add_add_right, max_add_add_left]

/-- C1: resolution is the pure function: with no forced override the resolved
value is the declared preference when it is `light` or `dark` and the ambient
value when it is `system`; with a forced override it is the resolution of the
override, regardless of the declared preference.  The provider's initial
`resolvedTheme` state is exactly this pipeline applied to the stored
preference and the ambient value. -/
theorem spec_C1_resolution (p : Theme) (a : ResolvedTheme) :
    resolveWithForced none Theme.light a = ResolvedTheme.light ∧
    resolveWithForced none Theme.dark a = ResolvedTheme.dark ∧
    resolveWithForced none Theme.system a = a ∧
    (∀ f : Theme, resolveWithForced (some f) p a = resolveTheme f a) ∧
    (∀ (cfg : Impl1.Config) (window : Option Bool) (storage : Storage),
      (Impl1.initState cfg window storage).resolvedTheme =
        resolveWithForced cfg.forcedTheme
          (Impl1.getStoredTheme window storage cfg.storageKey cfg.defaultTheme)
          (Impl1.getSystemTheme window)) :=
  ⟨rfl, rfl, rfl, fun _ => rfl, fun _ _ _ => rfl⟩

/-- C2 counterexample: implementation 1's `getSystemTheme` returns `"dark"`,
not `"light"`, when no window exists (theme-provider.tsx line 37), so the
claim's fixed fallback value `'light'` does not hold for it. -/
theorem spec_C2_counterexample :
    Impl1.getSystemTheme none = ResolvedTheme.dark ∧
    Impl1.getSystemTheme none ≠ ResolvedTheme.light := by
  refine ⟨rfl, by decide⟩

/-- C2 amended: with no window, implementation 2's `getSystemTheme` returns
the fallback `"light"`, while implementation 1's returns `"dark"`; with a
window present the two agree on the media-query read. -/
theorem spec_C2_fallback_values :
    Impl2.getSystemTheme none = ResolvedTheme.light ∧
    Impl1.getSystemTheme none = ResolvedTheme.dark ∧
    ∀ m : Bool, Impl1.getSystemTheme (some m) = Impl2.getSystemTheme (some m) :=
  ⟨rfl, rfl, fun _ => rfl⟩

/-- C3 counterexample: in implementation 2, storing the invalid value
`"purple"` and then loading with default `"light"` returns `"purple"`, not
the default — the unvalidated load does not discard unrecognized values. -/
theorem spec_C3_counterexample :
    Impl2.loadStoredTheme (some true)
        (setItem (fun _ => none) "theme-preference" "purple")
        "theme-preference" "light" = "purple" ∧
    "purple" ≠ "light" := by
  constructor
  · simp [Impl2.loadStoredTheme, setItem]
  · decide

/-- C3 amended: for every key, a save of `"dark"` followed by a fresh load
returns `"dark"` in both implementations; saving a value outside the
enumeration (e.g. `"purple"`) followed by a load returns the default in
implementation 1's validating `getStoredTheme`, but implementation 2's
unvalidated load returns any non-empty stored string verbatim. -/
theorem spec_C3_round_trip_validation (storage : Storage) (key : String)
    (d : Theme) (d2 s : String) (m : Bool) (hs : s ≠ "") :
    Impl1.getStoredTheme (some m) (setItem storage key "dark") key d = Theme.dark ∧
    Impl1.getStoredTheme (some m) (setItem storage key "purple") key d = d ∧
    Impl2.loadStoredTheme (some m) (setItem storage key "dark") key d2 = "dark" ∧
    Impl2.loadStoredTheme (some m) (setItem storage key s) key d2 = s := by
  refine ⟨?_, ?_, ?_, ?_⟩
  · simp [Impl1.getStoredTheme, setItem]
  · simp [Impl1.getStoredTheme, setItem]
  · simp [Impl2.loadStoredTheme, setItem]
  · simp [Impl2.loadStoredTheme, setItem, hs]

/-- C3 amended, witness at concrete inputs. -/
theorem spec_C3_round_trip_validation_witness :
    Impl1.getStoredTheme (some true) (setItem (fun _ => none) "theme" "dark")
      "theme" Theme.light = Theme.dark ∧
    Impl1.getStoredTheme (some true) (setItem (fun _ => none) "theme" "purple")
      "theme" Theme.light = Theme.light ∧
    Impl2.loadStoredTheme (some true) (setItem (fun _ => none) "theme" "dark")
      "theme" "light" = "dark" ∧
    Impl2.loadStoredTheme (some true) (setItem (fun _ => none) "theme" "purple")
      "theme" "light" = "purple" :=
  spec_C3_round_trip_validation (fun _ => none) "theme" Theme.light "light"
    "purple" true (by decide)

/-- C6 counterexample: implementation 2's `applyTheme` dereferences the
`document` global without a guard (line 241), so in a context with no
document it throws a reference error instead of being a no-op. -/
theorem spec_C6_counterexample :
    Impl2.applyTheme false true true false "class" ⟨800, 600⟩
      ResolvedTheme.dark none = Impl2.ApplyResult.errorNoDocument ∧
    (Impl2.applyTheme false true true false "class" ⟨800, 600⟩
      ResolvedTheme.dark none).isError = true :=
  ⟨rfl, rfl⟩

/-- C6 amended: with no document, implementation 1's `applyTheme` and
`setCookie` are guarded no-ops (no surface operation, cookie jar unchanged,
no error), while implementation 2's unguarded `applyTheme` always throws. -/
theorem spec_C6_no_document_no_op (t : ResolvedTheme) (attr : Attr) (dis : Bool)
    (cookies : List (String × String)) (n v : String) (svt evt dtc : Bool)
    (a : String) (vp : Impl2.ViewportSize) (nt : ResolvedTheme)
    (ce : Option Impl2.ClickEvent) :
    Impl1.applyTheme false t attr dis = ([], []) ∧
    Impl1.setCookie false cookies n v = cookies ∧
    Impl2.applyTheme false svt evt dtc a vp nt ce =
      Impl2.ApplyResult.errorNoDocument :=
  ⟨rfl, rfl, rfl⟩

/-- Number of no-transition style-rule removals in a trace. -/
def ruleRemovals (ops : List SurfaceOp) : Nat :=
  (ops.filter fun op =>
    match op with
    | SurfaceOp.removeNoTransitionRule => true
    | _ => false).length

/-- C4 counterexample: with the default configuration, calling the setter
twice in a row with the same preference performs the presentation-marker
write twice — one marker write per call, two in total, not "exactly one
surface mutation"; the second call's surface trace is not empty, so it is
not a no-op on the render surface. -/
theorem spec_C4_counterexample :
    markerWrites (Impl1.setTheme cfgPlain (some false) true s0Plain Theme.dark).2.1 = 1 ∧
    markerWrites (Impl1.setTheme cfgPlain (some false) true
        (Impl1.setTheme cfgPlain (some false) true s0Plain Theme.dark).1
        Theme.dark).2.1 = 1 ∧
    markerWrites (Impl1.setTheme cfgPlain (some false) true s0Plain Theme.dark).2.1 +
      markerWrites (Impl1.setTheme cfgPlain (some false) true
        (Impl1.setTheme cfgPlain (some false) true s0Plain Theme.dark).1
        Theme.dark).2.1 = 2 ∧
    (Impl1.setTheme cfgPlain (some false) true
        (Impl1.setTheme cfgPlain (some false) true s0Plain Theme.dark).1
        Theme.dark).2.1 ≠ [] := by
  decide

/-- C4 amended: calling the setter twice in a row with the same preference is
idempotent in effect — the second call emits exactly the same surface trace,
the declared and resolved state agree after the two calls, and replaying the
second trace on the surface leaves it exactly as after the first call — but
the second call is not skipped: the surface application runs again. -/
theorem spec_C4_setter_idempotent_effect (cfg : Impl1.Config)
    (window : Option Bool) (s : Impl1.State) (x : Theme) (surf : Surface)
    (hf : cfg.forcedTheme = none) :
    (Impl1.setTheme cfg window true (Impl1.setTheme cfg window true s x).1 x).2.1 =
      (Impl1.setTheme cfg window true s x).2.1 ∧
    (Impl1.setTheme cfg window true (Impl1.setTheme cfg window true s x).1 x).1.theme =
      (Impl1.setTheme cfg window true s x).1.theme ∧
    (Impl1.setTheme cfg window true (Impl1.setTheme cfg window true s x).1 x).1.resolvedTheme =
      (Impl1.setTheme cfg window true s x).1.resolvedTheme ∧
    runOps (runOps surf (Impl1.setTheme cfg window true s x).2.1)
        (Impl1.setTheme cfg window true (Impl1.setTheme cfg window true s x).1 x).2.1 =
      runOps surf (Impl1.setTheme cfg window true s x).2.1 := by
  refine ⟨?_, ?_, ?_, ?_⟩
  · simp [Impl1.setTheme, hf]
  · simp [Impl1.setTheme, hf]
  · simp [Impl1.setTheme, hf]
  · simp only [Impl1.setTheme, hf]
    exact runOps_applyTheme_idem surf _ cfg.attr cfg.disableTransitionOnChange

/-- C4 amended, witness at the default configuration. -/
theorem spec_C4_setter_idempotent_effect_witness :
    (Impl1.setTheme cfgPlain (some false) true
        (Impl1.setTheme cfgPlain (some false) true s0Plain Theme.dark).1
        Theme.dark).2.1 =
      (Impl1.setTheme cfgPlain (some false) true s0Plain Theme.dark).2.1 ∧
    (Impl1.setTheme cfgPlain (some false) true
        (Impl1.setTheme cfgPlain (some false) true s0Plain Theme.dark).1
        Theme.dark).1.theme =
      (Impl1.setTheme cfgPlain (some false) true s0Plain Theme.dark).1.theme ∧
    (Impl1.setTheme cfgPlain (some false) true
        (Impl1.setTheme cfgPlain (some false) true s0Plain Theme.dark).1
        Theme.dark).1.resolvedTheme =
      (Impl1.setTheme cfgPlain (some false) true s0Plain Theme.dark).1.resolvedTheme ∧
    runOps (runOps surf0 (Impl1.setTheme cfgPlain (some false) true s0Plain Theme.dark).2.1)
        (Impl1.setTheme cfgPlain (some false) true
          (Impl1.setTheme cfgPlain (some false) true s0Plain Theme.dark).1
          Theme.dark).2.1 =
      runOps surf0 (Impl1.setTheme cfgPlain (some false) true s0Plain Theme.dark).2.1 :=
  spec_C4_setter_idempotent_effect cfgPlain (some false) s0Plain Theme.dark surf0 rfl

/-- C8: with transition suppression on and animated transitions disabled or
unavailable, a setter call's synchronous trace is exactly: install the global
no-transition style rule, force a synchronous style recomputation, then the
marker mutation — the rule is in place before the mutation, its removal does
not occur in the synchronous trace, and it is scheduled on the deferred
(next-tick) trace instead.  The same shape holds for implementation 2's
plain path. -/
theorem spec_C8_suppress_rule_lifecycle (cfg : Impl1.Config)
    (hd : cfg.disableTransitionOnChange = true) (hf : cfg.forcedTheme = none)
    (window : Option Bool) (s : Impl1.State) (x : Theme) (a : String)
    (vp : Impl2.ViewportSize) (t2 : ResolvedTheme)
    (ce : Option Impl2.ClickEvent) (svt evt : Bool)
    (hcap : evt = false ∨ svt = false) :
    (Impl1.setTheme cfg window true s x).2.1 =
      [SurfaceOp.installNoTransitionRule, SurfaceOp.forceReflow] ++
        Impl1.markerOps cfg.attr (Impl1.setTheme cfg window true s x).1.resolvedTheme ∧
    (Impl1.setTheme cfg window true s x).2.2 = [SurfaceOp.removeNoTransitionRule] ∧
    ruleRemovals (Impl1.setTheme cfg window true s x).2.1 = 0 ∧
    ruleRemovals (Impl1.setTheme cfg window true s x).2.2 = 1 ∧
    markerWrites (Impl1.setTheme cfg window true s x).2.1 = 1 ∧
    Impl2.applyTheme true svt evt true a vp t2 ce =
      Impl2.ApplyResult.plain
        ([SurfaceOp.installNoTransitionRule, SurfaceOp.forceReflow] ++
          Impl2.updateThemeOps a t2)
        [SurfaceOp.removeNoTransitionRule] := by
  refine ⟨?_, ?_, ?_, ?_, ?_, ?_⟩
  · simp [Impl1.setTheme, hf, Impl1.applyTheme, hd]
  · simp [Impl1.setTheme, hf, Impl1.applyTheme, hd]
  · cases hattr : cfg.attr <;>
      simp [Impl1.setTheme, hf, Impl1.applyTheme, hd, hattr, Impl1.markerOps,
        ruleRemovals]
  · simp [Impl1.setTheme, hf, Impl1.applyTheme, hd, ruleRemovals]
  · cases hattr : cfg.attr <;>
      simp [Impl1.setTheme, hf, Impl1.applyTheme, hd, hattr, Impl1.markerOps,
        markerWrites]
  · rcases hcap with h | h <;> subst h <;> simp [Impl2.applyTheme]

/-- C8, witness at the default configuration with view transitions disabled. -/
theorem spec_C8_suppress_rule_lifecycle_witness :
    (Impl1.setTheme cfgPlain (some false) true s0Plain Theme.dark).2.1 =
      [SurfaceOp.installNoTransitionRule, SurfaceOp.forceReflow] ++
        Impl1.markerOps cfgPlain.attr
          (Impl1.setTheme cfgPlain (some false) true s0Plain Theme.dark).1.resolvedTheme ∧
    (Impl1.setTheme cfgPlain (some false) true s0Plain Theme.dark).2.2 =
      [SurfaceOp.removeNoTransitionRule] ∧
    ruleRemovals (Impl1.setTheme cfgPlain (some false) true s0Plain Theme.dark).2.1 = 0 ∧
    ruleRemovals (Impl1.setTheme cfgPlain (some false) true s0Plain Theme.dark).2.2 = 1 ∧
    markerWrites (Impl1.setTheme cfgPlain (some false) true s0Plain Theme.dark).2.1 = 1 ∧
    Impl2.applyTheme true false false true "class" ⟨800, 600⟩ ResolvedTheme.light none =
      Impl2.ApplyResult.plain
        ([SurfaceOp.installNoTransitionRule, SurfaceOp.forceReflow] ++
          Impl2.updateThemeOps "class" ResolvedTheme.light)
        [SurfaceOp.removeNoTransitionRule] :=
  spec_C8_suppress_rule_lifecycle cfgPlain rfl rfl (some false) s0Plain Theme.dark
    "class" ⟨800, 600⟩ ResolvedTheme.light none false false (Or.inl rfl)

/-- C5: with a forced override configured, the setter is a complete no-op for
every argument: the returned state is the input state (declared preference,
resolved value, storage and cookies all unchanged) and no surface operation
is emitted; this holds across any sequence of setter calls.  The exposed
declared preference is the override, and the resolved value is the
resolution of the override against the ambient value (for a binary override
`resolveTheme f a` is the override itself; `resolveTheme` resolves a
`system` override to the ambient value). -/
theorem spec_C5_forced_override_no_op (cfg : Impl1.Config) (f : Theme)
    (hf : cfg.forcedTheme = some f) (window : Option Bool) (docPresent : Bool)
    (storage : Storage) (s : Impl1.State) (v : Theme) (vs : List Theme) :
    Impl1.setTheme cfg window docPresent s v = (s, [], []) ∧
    (Impl1.contextValue cfg s).theme = f ∧
    (Impl1.initState cfg window storage).resolvedTheme =
      resolveTheme f (Impl1.getSystemTheme window) ∧
    vs.foldl (fun st u => (Impl1.setTheme cfg window docPresent st u).1) s = s := by
  have hset : ∀ (st : Impl1.State) (u : Theme),
      Impl1.setTheme cfg window docPresent st u = (st, [], []) := by
    intro st u
    simp [Impl1.setTheme, hf]
  refine ⟨hset s v, ?_, ?_, ?_⟩
  · simp [Impl1.contextValue, hf]
  · simp [Impl1.initState, hf]
  · induction vs generalizing s with
    | nil => rfl
    | cons a l2 ih => simp [List.foldl_cons, hset, ih]

/-- C5, witness at a concrete forced-`"dark"` configuration. -/
theorem spec_C5_forced_override_no_op_witness :
    Impl1.setTheme cfgForced (some false) true s0Forced Theme.light =
      (s0Forced, [], []) ∧
    (Impl1.contextValue cfgForced s0Forced).theme = Theme.dark ∧
    (Impl1.initState cfgForced (some false) emptyStorage).resolvedTheme =
      resolveTheme Theme.dark (Impl1.getSystemTheme (some false)) ∧
    [Theme.light, Theme.system].foldl
        (fun st u => (Impl1.setTheme cfgForced (some false) true st u).1)
        s0Forced = s0Forced :=
  spec_C5_forced_override_no_op cfgForced Theme.dark rfl (some false) true
    emptyStorage s0Forced Theme.light [Theme.light, Theme.system]

/-- C7: with transition capture available and an origin coordinate supplied,
the animated theme change runs the marker update inside the view transition
and drives a circular reveal anchored at the origin, from radius `0`, lasting
500ms with `ease-in-out` timing; the end radius
`hypot(max(x, w-x), max(y, h-y))` equals the largest distance from the
origin to any of the four viewport corners (stated on squared radii, since
squaring is monotone on nonnegative values). -/
theorem spec_C7_circular_reveal (x y w h : ℚ) (dis : Bool) (attr : String)
    (t : ResolvedTheme) (hx0 : 0 ≤ x) (hxw : x ≤ w) (hy0 : 0 ≤ y)
    (hyh : y ≤ h) :
    Impl2.applyTheme true true true dis attr ⟨w, h⟩ t (some ⟨x, y⟩) =
      Impl2.ApplyResult.viewTransition (Impl2.updateThemeOps attr t)
        (some (Impl2.revealAnimationAt x y w h)) ∧
    (Impl2.revealAnimationAt x y w h).endRadiusSq = maxCornerDistSq x y w h ∧
    (Impl2.revealAnimationAt x y w h).duration = 500 ∧
    (Impl2.revealAnimationAt x y w h).easing = "ease-in-out" ∧
    (Impl2.revealAnimationAt x y w h).fromRadius = 0 ∧
    (Impl2.revealAnimationAt x y w h).centerX = x ∧
    (Impl2.revealAnimationAt x y w h).centerY = y :=
  ⟨rfl, endRadiusSq_eq_maxCornerDistSq x y w h hx0 hxw hy0 hyh,
    rfl, rfl, rfl, rfl, rfl⟩

/-- C7, witness at the spec's scenario: origin `(100, 50)` in an `800 × 600`
viewport. -/
theorem spec_C7_circular_reveal_witness :
    Impl2.applyTheme true true true false "class" ⟨800, 600⟩ ResolvedTheme.dark
        (some ⟨100, 50⟩) =
      Impl2.ApplyResult.viewTransition
        (Impl2.updateThemeOps "class" ResolvedTheme.dark)
        (some (Impl2.revealAnimationAt 100 50 800 600)) ∧
    (Impl2.revealAnimationAt 100 50 800 600).endRadiusSq =
      maxCornerDistSq 100 50 800 600 ∧
    (Impl2.revealAnimationAt 100 50 800 600).duration = 500 ∧
    (Impl2.revealAnimationAt 100 50 800 600).easing = "ease-in-out" ∧
    (Impl2.revealAnimationAt 100 50 800 600).fromRadius = 0 ∧
    (Impl2.revealAnimationAt 100 50 800 600).centerX = 100 ∧
    (Impl2.revealAnimationAt 100 50 800 600).centerY = 50 :=
  spec_C7_circular_reveal 100 50 800 600 false "class" ResolvedTheme.dark
    (by norm_num) (by norm_num) (by norm_num) (by norm_num)

/-- C9: in both implementations, reading the theme context outside a provider
scope throws (the hook fails loudly instead of returning defaults), and
inside the scope it never throws and returns the context value. -/
theorem spec_C9_useTheme_outside_scope :
    Impl1.useTheme none =
      Except.error "useTheme must be used within ThemeProvider" ∧
    (∀ c : Impl1.ContextValue, Impl1.useTheme (some c) = Except.ok c) ∧
    Impl2.useTheme none =
      Except.error "useTheme debe usarse dentro de ThemeProvider" ∧
    (∀ c : Impl2.ContextValue, Impl2.useTheme (some c) = Except.ok c) :=
  ⟨rfl, fun _ => rfl, rfl, fun _ => rfl⟩

/-- C10: in implementation 2, the exposed `resolvedTheme` is the constant
`"light"` from construction until the mount effect runs, for every window
state, stored preference and default; only the mount effect publishes the
stored/ambient-derived resolution. -/
theorem spec_C10_premount_resolved_light (window : Option Bool)
    (storage : Storage) (key d : String) :
    (Impl2.initState window storage key d).resolvedTheme = "light" ∧
    (Impl2.initState window storage key d).mounted = false ∧
    (Impl2.mountEffect window (Impl2.initState window storage key d)).resolvedTheme =
      Impl2.resolveThemeRaw (Impl2.loadStoredTheme window storage key d)
        (Impl2.getSystemTheme window) :=
  ⟨rfl, rfl, rfl⟩

end Themes
